import Mathlib

/-
Verification of the credential and session lifecycle engine
(internal/services/auth/auth.go) against its specification.

The engine is embedded shallowly: every collaborator interface
(AccountSaver, AccountProvider, AppProvider, SessionSaver,
SessionProvider) and every crypto primitive (bcrypt, jwt, the random
refresh-token generator) is a field of a `Collab` record, and each
public method of the Go `Auth` struct becomes a pure Lean function
returning the Go result tuple together with the ordered list of
collaborator calls it issued (the effect trace).  Go `error` values
built with `fmt.Errorf("%s: %w", op, err)` are modelled by `GoErr.wrap`,
sentinel errors by `GoErr.kind`, and the wrap-of-a-nil-error that
`fmt.Errorf` performs when the `%w` operand is nil by `GoErr.wrapNil`;
`errors.Is err sentinel` becomes `GoErr.isKind`.  `time.Time` is
modelled as `Int` (Unix seconds), so `t.Before u` is `t < u` and
`t.Unix` is the identity.
-/

/-- Modelled from the spec (section 3): account status enumeration; the
`models` package is not under src/. -/
inductive AccountStatus
  | ACTIVE
  | SUSPENDED
deriving DecidableEq

/-- Modelled from the spec (section 3): account role enumeration; the
`models` package is not under src/. -/
inductive AccountRole
  | USER
  | ADMIN
deriving DecidableEq

/-- Modelled from the spec (section 3): a registered identity.  Fields
`id`, `passHash` and `appId` are the ones the engine reads. -/
structure Account where
  id : Int
  email : String
  passHash : List Nat
  role : AccountRole
  status : AccountStatus
  appId : Int
deriving DecidableEq

/-- Modelled from the spec (section 3): a registered client application,
read-only to the engine. -/
structure App where
  id : Int
  secret : String
  tokenTTL : Int
  refreshTokenTTL : Int
  redirectURL : String
deriving DecidableEq

/-- Modelled from the spec (section 3): one issued credential pair as
returned by the Session Store.  The engine reads `token`, `expiresAt`
and `refreshExpiresAt`. -/
structure Session where
  sessionID : String
  accountID : Int
  userAgent : String
  ipAddress : String
  token : String
  refreshToken : String
  expiresAt : Int
  refreshExpiresAt : Int
deriving DecidableEq

/-- Error kinds of the spec's taxonomy (section 7); sentinel errors such
as `storage.ErrAccountNotFound` and `auth.ErrInvalidCredentials` carry
one of these. -/
inductive ErrKind
  | invalidCredentials
  | accountNotFound
  | appNotFound
  | sessionNotFound
  | refreshTokenExpired
  | hashingFailure
  | tokenGenerationFailure
  | persistenceFailure
  | cancelled
deriving DecidableEq

/-- A Go error value as the engine builds them: a sentinel (`kind`), a
`fmt.Errorf("%s: %w", op, err)` wrap of a non-nil error (`wrap`), or the
wrap of a nil `%w` operand (`wrapNil`), which yields a non-nil error
that unwraps to nothing. -/
inductive GoErr
  | kind (k : ErrKind)
  | wrap (op : String) (e : GoErr)
  | wrapNil (op : String)
deriving DecidableEq

/-- Models `errors.Is err sentinel` for a sentinel carrying kind
`target`: it traverses `wrap` chains and never matches through a wrapped
nil. -/
def GoErr.isKind : GoErr → ErrKind → Bool
  | .kind k, target => decide (k = target)
  | .wrap _ e, target => e.isKind target
  | .wrapNil _, _ => false

/-- One collaborator call issued by the engine, in program order. -/
inductive Effect
  | readAccountByEmail (email : String)
  | readAccountById (accountId : Int)
  | readApp (appId : Int)
  | readSessions (accountId : Int)
  | readSessionByToken (token : String)
  | readSessionByRefreshToken (refreshToken : String)
  | saveAccount (email : String) (passHash : List Nat) (role : AccountRole)
      (status : AccountStatus) (appId : Int)
  | updatePassword (accountId : Int) (newPassHash : List Nat)
  | updateStatus (accountId : Int) (status : AccountStatus)
  | saveSession (accountId : Int) (userAgent ipAddress token refreshToken : String)
      (expiresAt : Int)
  | revokeSession (token : String)
deriving DecidableEq

/-- Whether a collaborator call goes to the session store (any of the
`SessionSaver` / `SessionProvider` operations). -/
def Effect.touchesSessionStore : Effect → Bool
  | .readSessions _ => true
  | .readSessionByToken _ => true
  | .readSessionByRefreshToken _ => true
  | .saveSession _ _ _ _ _ _ => true
  | .revokeSession _ => true
  | _ => false

/-- Whether a collaborator call writes to the session store. -/
def Effect.isSessionWrite : Effect → Bool
  | .saveSession _ _ _ _ _ _ => true
  | .revokeSession _ => true
  | _ => false

/-- Whether a collaborator call revokes a session. -/
def Effect.isRevoke : Effect → Bool
  | .revokeSession _ => true
  | _ => false

/-- Whether a collaborator call updates an account password. -/
def Effect.isUpdatePassword : Effect → Bool
  | .updatePassword _ _ => true
  | _ => false

/-- A row of the session store as created by `SaveSession`; per the
collaborator contract (spec section 6) the time argument of
`SaveSession` is the row's `refreshExpiresAt`. -/
structure SessionRow where
  accountID : Int
  userAgent : String
  ipAddress : String
  token : String
  refreshToken : String
  refreshExpiresAt : Int
deriving DecidableEq

/-- Session-store semantics of one effect: `saveSession` appends a new
row, `revokeSession` deletes the rows holding that token, every other
call leaves the store unchanged. -/
def applySessionEffect (store : List SessionRow) : Effect → List SessionRow
  | .saveSession aid ua ip tok rtok exp => store ++ [⟨aid, ua, ip, tok, rtok, exp⟩]
  | .revokeSession tok => store.filter (fun r => r.token != tok)
  | _ => store

/-- Session-store state after an effect trace runs against it. -/
def applyTrace (store : List SessionRow) (tr : List Effect) : List SessionRow :=
  tr.foldl applySessionEffect store

/-- The collaborators injected into the engine: the five store
interfaces of auth.go plus the crypto primitives (bcrypt, jwt, the
CSPRNG behind `generateRefreshToken`) and the current clock reading.
`bcryptCompare` returns `none` on a password match, mirroring
`bcrypt.CompareHashAndPassword` returning a nil error. -/
structure Collab where
  accountByEmail : String → Except GoErr Account
  accountById : Int → Except GoErr Account
  app : Int → Except GoErr App
  saveAccount : String → List Nat → AccountRole → AccountStatus → Int → Except GoErr Int
  updatePassword : Int → List Nat → Option GoErr
  updateStatus : Int → AccountStatus → Option GoErr
  sessions : Int → Except GoErr (List Session)
  sessionByToken : String → Except GoErr Session
  sessionByRefreshToken : String → Except GoErr Session
  revokeSession : String → Option GoErr
  saveSession : Int → String → String → String → String → Int → Except GoErr String
  bcryptHash : String → Except GoErr (List Nat)
  bcryptCompare : List Nat → String → Option GoErr
  jwtNewToken : Account → App → Int → Except GoErr String
  newRefreshToken : Except GoErr String
  now : Int

/-- The engine's own state: only the two configured TTLs (auth.go lines
20-29; the logger is ignored, log statements have no observable
effect). -/
structure Auth where
  tokenTTL : Int
  refreshTokenTTL : Int

/-- auth.go lines 181-190: `generateRefreshToken` returns the encoded
random token, or the raw error when the CSPRNG read fails. -/
def generateRefreshToken (c : Collab) : Except GoErr String :=
  c.newRefreshToken

/-- auth.go lines 86-111: `RegisterNewAccount` hashes the password and
saves one account with status ACTIVE; it never touches the session
store. -/
def Auth.RegisterNewAccount (_a : Auth) (c : Collab) (email pass : String)
    (role : AccountRole) (appId : Int) : (Int × Option GoErr) × List Effect :=
  match c.bcryptHash pass with
  | .error err => ((0, some (.wrap "Auth.RegisterNewAccount" err)), [])
  | .ok passHash =>
      match c.saveAccount email passHash role AccountStatus.ACTIVE appId with
      | .error err =>
          ((0, some (.wrap "Auth.RegisterNewAccount" err)),
            [.saveAccount email passHash role AccountStatus.ACTIVE appId])
      | .ok id =>
          ((id, none),
            [.saveAccount email passHash role AccountStatus.ACTIVE appId])

/-- auth.go lines 117-179: `Login` returns (accessToken, refreshToken,
error).  An `ErrAccountNotFound` store failure and a bcrypt mismatch
both surface as the wrapped `ErrInvalidCredentials` sentinel; any other
lookup failure is wrapped unchanged. -/
def Auth.Login (a : Auth) (c : Collab) (email password userAgent ipAddress : String)
    (appID : Int) : (String × String × Option GoErr) × List Effect :=
  match c.accountByEmail email with
  | .error err =>
      if err.isKind .accountNotFound then
        (("", "", some (.wrap "Auth.Login" (.kind .invalidCredentials))),
          [.readAccountByEmail email])
      else
        (("", "", some (.wrap "Auth.Login" err)), [.readAccountByEmail email])
  | .ok user =>
      match c.bcryptCompare user.passHash password with
      | some _ =>
          (("", "", some (.wrap "Auth.Login" (.kind .invalidCredentials))),
            [.readAccountByEmail email])
      | none =>
          match c.app appID with
          | .error err =>
              (("", "", some (.wrap "Auth.Login" err)),
                [.readAccountByEmail email, .readApp appID])
          | .ok app =>
              match c.jwtNewToken user app a.tokenTTL with
              | .error err =>
                  (("", "", some (.wrap "Auth.Login" err)),
                    [.readAccountByEmail email, .readApp appID])
              | .ok token =>
                  match generateRefreshToken c with
                  | .error err =>
                      (("", "", some (.wrap "Auth.Login" err)),
                        [.readAccountByEmail email, .readApp appID])
                  | .ok refreshToken =>
                      match c.saveSession user.id userAgent ipAddress token refreshToken
                          (c.now + a.refreshTokenTTL) with
                      | .error err =>
                          (("", "", some (.wrap "Auth.Login" err)),
                            [.readAccountByEmail email, .readApp appID,
                              .saveSession user.id userAgent ipAddress token refreshToken
                                (c.now + a.refreshTokenTTL)])
                      | .ok _ =>
                          ((token, refreshToken, none),
                            [.readAccountByEmail email, .readApp appID,
                              .saveSession user.id userAgent ipAddress token refreshToken
                                (c.now + a.refreshTokenTTL)])

/-- auth.go lines 210-216: the revocation loop of `Logout`, returning
the first revoke failure (if any) and the revoke calls issued, in
order. -/
def revokeSessionsLoop (c : Collab) : List Session → Option GoErr × List Effect
  | [] => (none, [])
  | s :: rest =>
      match c.revokeSession s.token with
      | some err => (some err, [Effect.revokeSession s.token])
      | none =>
          match revokeSessionsLoop c rest with
          | (r, tr) => (r, Effect.revokeSession s.token :: tr)

/-- auth.go lines 193-220: `Logout` fetches the account's sessions and
revokes them sequentially, returning at the first failure. -/
def Auth.Logout (_a : Auth) (c : Collab) (accountID : Int) :
    (Bool × Option GoErr) × List Effect :=
  match c.sessions accountID with
  | .error err => ((false, some (.wrap "Auth.Logout" err)), [.readSessions accountID])
  | .ok sess =>
      match revokeSessionsLoop c sess with
      | (some err, tr) =>
          ((false, some (.wrap "Auth.Logout" err)), .readSessions accountID :: tr)
      | (none, tr) => ((true, none), .readSessions accountID :: tr)

/-- auth.go lines 222-257: `ChangePassword` fetches the account,
verifies the old password, hashes and persists the new one. -/
def Auth.ChangePassword (_a : Auth) (c : Collab) (accountID : Int)
    (oldPassword newPassword : String) : (Bool × Option GoErr) × List Effect :=
  match c.accountById accountID with
  | .error err =>
      ((false, some (.wrap "Auth.ChangePassword" err)), [.readAccountById accountID])
  | .ok account =>
      match c.bcryptCompare account.passHash oldPassword with
      | some _ =>
          ((false, some (.wrap "Auth.ChangePassword" (.kind .invalidCredentials))),
            [.readAccountById accountID])
      | none =>
          match c.bcryptHash newPassword with
          | .error err =>
              ((false, some (.wrap "Auth.ChangePassword" err)),
                [.readAccountById accountID])
          | .ok newPassHash =>
              match c.updatePassword accountID newPassHash with
              | some err =>
                  ((false, some (.wrap "Auth.ChangePassword" err)),
                    [.readAccountById accountID, .updatePassword accountID newPassHash])
              | none =>
                  ((true, none),
                    [.readAccountById accountID, .updatePassword accountID newPassHash])

/-- auth.go lines 260-279: `ChangeStatus` delegates to the account
store and returns the requested status in both branches. -/
def Auth.ChangeStatus (_a : Auth) (c : Collab) (accountID : Int)
    (status : AccountStatus) : (AccountStatus × Option GoErr) × List Effect :=
  match c.updateStatus accountID status with
  | some err =>
      ((status, some (.wrap "Auth.ChangeStatus" err)), [.updateStatus accountID status])
  | none => ((status, none), [.updateStatus accountID status])

/-- auth.go lines 282-300: `GetActiveAccountSessions` is a read-through
to the session store (the Go nil slice on error is modelled as `[]`). -/
def Auth.GetActiveAccountSessions (_a : Auth) (c : Collab) (accountID : Int) :
    (List Session × Option GoErr) × List Effect :=
  match c.sessions accountID with
  | .error err =>
      (([], some (.wrap "Auth.GetActiveAccountSessions" err)), [.readSessions accountID])
  | .ok sessions => ((sessions, none), [.readSessions accountID])

/-- auth.go lines 303-363: `RefreshAccountSession` fetches the account,
its app and the session by refresh token, rejects an expired refresh
token (wrapping the local `err` variable, which is nil on that path),
then mints a new pair and saves a new session row. -/
def Auth.RefreshAccountSession (a : Auth) (c : Collab) (accountID : Int)
    (refreshToken userAgent ipAddress : String) :
    (String × String × Int × Option GoErr) × List Effect :=
  match c.accountById accountID with
  | .error err =>
      (("", "", 0, some (.wrap "Auth.RefreshAccountSession" err)),
        [.readAccountById accountID])
  | .ok account =>
      match c.app account.appId with
      | .error err =>
          (("", "", 0, some (.wrap "Auth.RefreshAccountSession" err)),
            [.readAccountById accountID, .readApp account.appId])
      | .ok app =>
          match c.sessionByRefreshToken refreshToken with
          | .error err =>
              (("", "", 0, some (.wrap "Auth.RefreshAccountSession" err)),
                [.readAccountById accountID, .readApp account.appId,
                  .readSessionByRefreshToken refreshToken])
          | .ok session =>
              if session.refreshExpiresAt < c.now then
                (("", "", 0, some (.wrapNil "Auth.RefreshAccountSession")),
                  [.readAccountById accountID, .readApp account.appId,
                    .readSessionByRefreshToken refreshToken])
              else
                match c.jwtNewToken account app a.tokenTTL with
                | .error err =>
                    (("", "", 0, some (.wrap "Auth.RefreshAccountSession" err)),
                      [.readAccountById accountID, .readApp account.appId,
                        .readSessionByRefreshToken refreshToken])
                | .ok newToken =>
                    match generateRefreshToken c with
                    | .error err =>
                        (("", "", 0, some (.wrap "Auth.RefreshAccountSession" err)),
                          [.readAccountById accountID, .readApp account.appId,
                            .readSessionByRefreshToken refreshToken])
                    | .ok newRefreshToken =>
                        match c.saveSession accountID userAgent ipAddress newToken
                            newRefreshToken (c.now + a.refreshTokenTTL) with
                        | .error err =>
                            (("", "", 0, some (.wrap "Auth.RefreshAccountSession" err)),
                              [.readAccountById accountID, .readApp account.appId,
                                .readSessionByRefreshToken refreshToken,
                                .saveSession accountID userAgent ipAddress newToken
                                  newRefreshToken (c.now + a.refreshTokenTTL)])
                        | .ok _ =>
                            ((newToken, newRefreshToken, c.now + a.refreshTokenTTL, none),
                              [.readAccountById accountID, .readApp account.appId,
                                .readSessionByRefreshToken refreshToken,
                                .saveSession accountID userAgent ipAddress newToken
                                  newRefreshToken (c.now + a.refreshTokenTTL)])

/-- auth.go lines 366-388: `ValidateAccountSession` looks up the
session by access token; a store failure is an error, an expired
session is the non-error result (false, expiresAt), otherwise
(true, expiresAt). -/
def Auth.ValidateAccountSession (_a : Auth) (c : Collab) (token : String) :
    (Bool × Int × Option GoErr) × List Effect :=
  match c.sessionByToken token with
  | .error err =>
      ((false, 0, some (.wrap "Auth.ValidateAccountSession" err)),
        [.readSessionByToken token])
  | .ok session =>
      if session.expiresAt < c.now then
        ((false, session.expiresAt, none), [.readSessionByToken token])
      else
        ((true, session.expiresAt, none), [.readSessionByToken token])

/-- auth.go lines 391-408: `RevokeAccountSession` delegates to the
session store's revoke-by-token operation. -/
def Auth.RevokeAccountSession (_a : Auth) (c : Collab) (token : String) :
    (Bool × Option GoErr) × List Effect :=
  match c.revokeSession token with
  | some err =>
      ((false, some (.wrap "Auth.RevokeAccountSession" err)), [.revokeSession token])
  | none => ((true, none), [.revokeSession token])

/-- A concrete account used by witnesses. -/
def acc1 : Account :=
  { id := 7, email := "a@x.com", passHash := [1, 2, 3], role := AccountRole.USER,
    status := AccountStatus.ACTIVE, appId := 1 }

/-- A concrete app used by witnesses. -/
def app1 : App :=
  { id := 1, secret := "s", tokenTTL := 3600, refreshTokenTTL := 86400,
    redirectURL := "r" }

/-- A concrete session store record with the given token and expiries. -/
def sess (tok : String) (exp rexp : Int) : Session :=
  { sessionID := "sid", accountID := 7, userAgent := "ua", ipAddress := "ip",
    token := tok, refreshToken := "rt", expiresAt := exp, refreshExpiresAt := rexp }

/-- A collaborator assignment on which every call succeeds; witnesses
override single fields of it. -/
def baseCollab : Collab where
  accountByEmail := fun _ => .ok acc1
  accountById := fun _ => .ok acc1
  app := fun _ => .ok app1
  saveAccount := fun _ _ _ _ _ => .ok 7
  updatePassword := fun _ _ => none
  updateStatus := fun _ _ => none
  sessions := fun _ => .ok []
  sessionByToken := fun _ => .ok (sess "t" 100 200)
  sessionByRefreshToken := fun _ => .ok (sess "t" 100 200)
  revokeSession := fun _ => none
  saveSession := fun _ _ _ _ _ _ => .ok "sid"
  bcryptHash := fun _ => .ok [9]
  bcryptCompare := fun _ _ => none
  jwtNewToken := fun _ _ _ => .ok "jwt"
  newRefreshToken := .ok "newrt"
  now := 100

/-- A concrete engine configuration: tokenTTL one hour, refresh TTL one
day, in seconds. -/
def auth0 : Auth := { tokenTTL := 3600, refreshTokenTTL := 86400 }

/-- Collaborators for C1: the session found by refresh token has
refreshExpiresAt 50, strictly before now = 100. -/
def collabC1 : Collab :=
  { baseCollab with sessionByRefreshToken := fun _ => .ok (sess "t" 40 50) }

/-- Collaborators for the C2 boundary case: the session found by token
has expiresAt 100, equal to now = 100. -/
def collabC2 : Collab :=
  { baseCollab with sessionByToken := fun _ => .ok (sess "tok" 100 200) }

/-- Collaborators for C8: the store returns two sessions both already
expired against now = 100. -/
def collabC8 : Collab :=
  { baseCollab with sessions := fun _ => .ok [sess "t1" 5 6, sess "t2" 1 2] }

/-- Collaborators for the C3 witness: three stored sessions, the second
of which fails to revoke. -/
def collabC3 : Collab :=
  { baseCollab with
      sessions := fun _ => .ok [sess "tA" 10 20, sess "tB" 10 20, sess "tC" 10 20],
      revokeSession := fun t =>
        if t = "tB" then some (.kind .persistenceFailure) else none }

/-- Collaborators for C4: the account lookup misses. -/
def collabC4a : Collab :=
  { baseCollab with accountByEmail := fun _ => .error (.kind .accountNotFound) }

/-- Collaborators for C4: the account exists but the password does not
verify. -/
def collabC4b : Collab :=
  { baseCollab with
      bcryptCompare := fun _ _ => some (.kind .invalidCredentials) }

/-- Collaborators for C4: the account lookup fails with a non-not-found
store error. -/
def collabC4c : Collab :=
  { baseCollab with accountByEmail := fun _ => .error (.kind .persistenceFailure) }

/-- A pre-existing session-store row, used to witness that refresh
leaves prior rows untouched. -/
def row0 : SessionRow :=
  { accountID := 1, userAgent := "u0", ipAddress := "i0", token := "t0",
    refreshToken := "r0", refreshExpiresAt := 5 }

/-- The row the C6 witness expects the refresh to append: the new pair
with refreshExpiresAt = now + refreshTokenTTL = 100 + 86400. -/
def rowNew : SessionRow :=
  { accountID := 7, userAgent := "ua", ipAddress := "ip", token := "jwt",
    refreshToken := "newrt", refreshExpiresAt := 86500 }

/-- Collaborators for the C7 counterexample: the account lookup by id
fails with a persistence error, not with account-not-found. -/
def collabC7 : Collab :=
  { baseCollab with accountById := fun _ => .error (.kind .persistenceFailure) }

/-- Collaborators for the C10 witness: the app lookup fails mid-Login. -/
def collabC10 : Collab :=
  { baseCollab with app := fun _ => .error (.kind .appNotFound) }

/-- Claim C1 (code bug, auth.go lines 335-338): when the session found
by refresh token has refreshExpiresAt (50) earlier than now (100),
RefreshAccountSession does fail — but the error it returns is
`fmt.Errorf("%s: %w", op, err)` with `err` nil at that point, so the
failure carries no RefreshTokenExpired kind: `errors.Is` on the
returned error is false for the RefreshTokenExpired sentinel (and for
every other sentinel). -/
theorem C1_refresh_expired_error_carries_no_kind :
    (auth0.RefreshAccountSession collabC1 7 "rt" "ua" "ip").1 =
      ("", "", 0, some (GoErr.wrapNil "Auth.RefreshAccountSession")) ∧
    GoErr.isKind (GoErr.wrapNil "Auth.RefreshAccountSession")
      ErrKind.refreshTokenExpired = false :=
  ⟨rfl, rfl⟩

/-- Claim C2, counterexample: at the exact instant now = expiresAt
(both 100) the code returns (true, expiresAt), not (false, expiresAt)
as the claim states, because auth.go line 381 tests the strict
`expiresAt < now`. -/
theorem C2_boundary_counterexample :
    collabC2.now = 100 ∧
    collabC2.sessionByToken "tok" = Except.ok (sess "tok" 100 200) ∧
    (auth0.ValidateAccountSession collabC2 "tok").1 = (true, 100, none) :=
  ⟨rfl, rfl, rfl⟩

/-- Claim C2, amended: ValidateAccountSession returns an error whenever
the session store fails (in particular when the token is unknown); when
a session is found it returns (false, expiresAt) once now is strictly
after expiresAt, and (true, expiresAt) while now ≤ expiresAt — so at
the exact instant now = expiresAt the result is (true, expiresAt). -/
theorem C2_validate_session (a : Auth) (c : Collab) (token : String) :
    (∀ e, c.sessionByToken token = .error e →
      (a.ValidateAccountSession c token).1 =
        (false, 0, some (.wrap "Auth.ValidateAccountSession" e))) ∧
    (∀ s, c.sessionByToken token = .ok s → s.expiresAt < c.now →
      (a.ValidateAccountSession c token).1 = (false, s.expiresAt, none)) ∧
    (∀ s, c.sessionByToken token = .ok s → c.now ≤ s.expiresAt →
      (a.ValidateAccountSession c token).1 = (true, s.expiresAt, none)) := by
  refine ⟨fun e he => ?_, fun s hs hlt => ?_, fun s hs hle => ?_⟩
  · simp [Auth.ValidateAccountSession, he]
  · simp [Auth.ValidateAccountSession, hs, hlt]
  · simp [Auth.ValidateAccountSession, hs, not_lt.mpr hle]

/-- Witness for C2 at the boundary instant now = expiresAt = 100: the
session is found and reported valid. -/
theorem C2_validate_session_witness :
    (auth0.ValidateAccountSession collabC2 "tok").1 = (true, 100, none) :=
  (C2_validate_session auth0 collabC2 "tok").2.2 (sess "tok" 100 200) rfl (by decide)

/-- Claim C8: GetActiveAccountSessions returns exactly the list the
session store returns, in the same order, with no expiry
post-filtering. -/
theorem C8_get_sessions_passthrough (a : Auth) (c : Collab) (accountID : Int)
    (l : List Session) (h : c.sessions accountID = .ok l) :
    (a.GetActiveAccountSessions c accountID).1 = (l, none) := by
  simp [Auth.GetActiveAccountSessions, h]

/-- Witness for C8: both stored sessions are already expired against
now = 100, yet the engine returns them unfiltered and in store order. -/
theorem C8_get_sessions_passthrough_witness :
    (auth0.GetActiveAccountSessions collabC8 7).1 =
      ([sess "t1" 5 6, sess "t2" 1 2], none) :=
  C8_get_sessions_passthrough auth0 collabC8 7 [sess "t1" 5 6, sess "t2" 1 2] rfl

/-- Claim C9: ChangeStatus returns the status argument as its first
result in the success branch and in the store-failure branch alike, so
a caller ignoring the error cannot tell them apart from that value. -/
theorem C9_change_status_echoes_argument (a : Auth) (c : Collab) (accountID : Int)
    (status : AccountStatus) :
    (a.ChangeStatus c accountID status).1.1 = status := by
  cases h : c.updateStatus accountID status <;> simp [Auth.ChangeStatus, h]

/-- Helper: when every session in the list revokes cleanly, the loop
reports no error and issues one revoke call per session, in order. -/
theorem revokeSessionsLoop_all_ok (c : Collab) (sess : List Session)
    (h : ∀ s ∈ sess, c.revokeSession s.token = none) :
    revokeSessionsLoop c sess =
      (none, sess.map (fun s => Effect.revokeSession s.token)) := by
  induction sess with
  | nil => rfl
  | cons s rest ih =>
      have hs : c.revokeSession s.token = none := h s (by simp)
      have hrest : ∀ x ∈ rest, c.revokeSession x.token = none :=
        fun x hx => h x (by simp [hx])
      simp [revokeSessionsLoop, hs, ih hrest]

/-- Helper: when every session before `sk` revokes cleanly and revoking
`sk` fails, the loop stops at `sk`: it reports that failure and issues
revoke calls only for the prefix and for `sk`, none for the rest. -/
theorem revokeSessionsLoop_fail (c : Collab) (pre : List Session) (sk : Session)
    (post : List Session) (e : GoErr)
    (hpre : ∀ s ∈ pre, c.revokeSession s.token = none)
    (hk : c.revokeSession sk.token = some e) :
    revokeSessionsLoop c (pre ++ sk :: post) =
      (some e, pre.map (fun s => Effect.revokeSession s.token) ++
        [Effect.revokeSession sk.token]) := by
  induction pre with
  | nil => simp [revokeSessionsLoop, hk]
  | cons s rest ih =>
      have hs : c.revokeSession s.token = none := hpre s (by simp)
      have hrest : ∀ x ∈ rest, c.revokeSession x.token = none :=
        fun x hx => hpre x (by simp [hx])
      simp [revokeSessionsLoop, hs, ih hrest]

/-- Claim C3: Logout revokes the sessions the store returned, one by
one in list order.  If every revocation succeeds it returns success
after issuing exactly one revoke call per session; if revoking the
session `sk` that follows the clean prefix `pre` fails, it returns
failure immediately, having issued revoke calls only for `pre` (already
revoked) and the failing `sk` — never for the sessions after `sk`, and
with no rollback call of any sort. -/
theorem C3_logout_fail_fast (a : Auth) (c : Collab) (accountID : Int) :
    (∀ sess, c.sessions accountID = .ok sess →
      (∀ s ∈ sess, c.revokeSession s.token = none) →
      (a.Logout c accountID).1 = (true, none) ∧
      (a.Logout c accountID).2 =
        Effect.readSessions accountID ::
          sess.map (fun s => Effect.revokeSession s.token)) ∧
    (∀ pre sk post e, c.sessions accountID = .ok (pre ++ sk :: post) →
      (∀ s ∈ pre, c.revokeSession s.token = none) →
      c.revokeSession sk.token = some e →
      (a.Logout c accountID).1 = (false, some (.wrap "Auth.Logout" e)) ∧
      (a.Logout c accountID).2 =
        Effect.readSessions accountID ::
          (pre.map (fun s => Effect.revokeSession s.token) ++
            [Effect.revokeSession sk.token])) := by
  constructor
  · intro sess hsess hall
    simp [Auth.Logout, hsess, revokeSessionsLoop_all_ok c sess hall]
  · intro pre sk post e hsess hpre hk
    simp [Auth.Logout, hsess, revokeSessionsLoop_fail c pre sk post e hpre hk]

/-- Witness for C3: with sessions tA, tB, tC and tB failing to revoke,
Logout fails with the wrapped store error and the trace shows the read,
the successful revoke of tA and the failing revoke of tB — tC is never
touched. -/
theorem C3_logout_fail_fast_witness :
    (auth0.Logout collabC3 7).1 =
      (false, some (.wrap "Auth.Logout" (.kind .persistenceFailure))) ∧
    (auth0.Logout collabC3 7).2 =
      [Effect.readSessions 7, Effect.revokeSession "tA", Effect.revokeSession "tB"] := by
  have h := (C3_logout_fail_fast auth0 collabC3 7).2 [sess "tA" 10 20]
    (sess "tB" 10 20) [sess "tC" 10 20] (.kind .persistenceFailure)
    rfl (by decide) (by decide)
  exact ⟨h.1, by simpa using h.2⟩

/-- Claim C4: in Login, an account-not-found lookup failure and a
password-verification failure produce the very same wrapped
InvalidCredentials error value, while a lookup failure of any other
kind is wrapped and propagated unchanged. -/
theorem C4_login_uniform_invalid_credentials (a : Auth) (c : Collab)
    (email password userAgent ipAddress : String) (appID : Int) :
    (∀ e, c.accountByEmail email = .error e → e.isKind .accountNotFound = true →
      (a.Login c email password userAgent ipAddress appID).1.2.2 =
        some (.wrap "Auth.Login" (.kind .invalidCredentials))) ∧
    (∀ u e2, c.accountByEmail email = .ok u →
      c.bcryptCompare u.passHash password = some e2 →
      (a.Login c email password userAgent ipAddress appID).1.2.2 =
        some (.wrap "Auth.Login" (.kind .invalidCredentials))) ∧
    (∀ e, c.accountByEmail email = .error e → e.isKind .accountNotFound = false →
      (a.Login c email password userAgent ipAddress appID).1.2.2 =
        some (.wrap "Auth.Login" e)) := by
  refine ⟨fun e he hk => ?_, fun u e2 hu hcmp => ?_, fun e he hk => ?_⟩
  · simp [Auth.Login, he, hk]
  · simp [Auth.Login, hu, hcmp]
  · simp [Auth.Login, he, hk]

/-- Witness for C4: unknown email and wrong password yield the
identical wrapped InvalidCredentials error, while a persistence failure
propagates as itself. -/
theorem C4_login_uniform_invalid_credentials_witness :
    (auth0.Login collabC4a "a@x.com" "pw" "ua" "ip" 1).1.2.2 =
      some (.wrap "Auth.Login" (.kind .invalidCredentials)) ∧
    (auth0.Login collabC4b "a@x.com" "pw" "ua" "ip" 1).1.2.2 =
      some (.wrap "Auth.Login" (.kind .invalidCredentials)) ∧
    (auth0.Login collabC4c "a@x.com" "pw" "ua" "ip" 1).1.2.2 =
      some (.wrap "Auth.Login" (.kind .persistenceFailure)) :=
  ⟨(C4_login_uniform_invalid_credentials auth0 collabC4a "a@x.com" "pw" "ua" "ip" 1).1
      (.kind .accountNotFound) rfl rfl,
    (C4_login_uniform_invalid_credentials auth0 collabC4b "a@x.com" "pw" "ua" "ip" 1).2.1
      acc1 (.kind .invalidCredentials) rfl rfl,
    (C4_login_uniform_invalid_credentials auth0 collabC4c "a@x.com" "pw" "ua" "ip" 1).2.2
      (.kind .persistenceFailure) rfl rfl⟩

/-- Claim C5: a successful RegisterNewAccount issues exactly one
collaborator write — the save of the new account with status ACTIVE —
and never touches the session store (its whole trace is that single
save-account call). -/
theorem C5_register_saves_one_account_no_session (a : Auth) (c : Collab)
    (email pass : String) (role : AccountRole) (appId : Int)
    (ph : List Nat) (uid : Int)
    (hh : c.bcryptHash pass = .ok ph)
    (hs : c.saveAccount email ph role AccountStatus.ACTIVE appId = .ok uid) :
    (a.RegisterNewAccount c email pass role appId).1 = (uid, none) ∧
    (a.RegisterNewAccount c email pass role appId).2 =
      [Effect.saveAccount email ph role AccountStatus.ACTIVE appId] ∧
    ∀ eff ∈ (a.RegisterNewAccount c email pass role appId).2,
      eff.touchesSessionStore = false := by
  refine ⟨?_, ?_, ?_⟩ <;>
    simp [Auth.RegisterNewAccount, hh, hs, Effect.touchesSessionStore]

/-- Witness for C5: on the all-succeeding collaborators, registration
returns the new id and its trace is the single ACTIVE save-account
call. -/
theorem C5_register_saves_one_account_no_session_witness :
    (auth0.RegisterNewAccount baseCollab "a@x.com" "pw" AccountRole.USER 1).1 =
      (7, none) ∧
    (auth0.RegisterNewAccount baseCollab "a@x.com" "pw" AccountRole.USER 1).2 =
      [Effect.saveAccount "a@x.com" [9] AccountRole.USER AccountStatus.ACTIVE 1] :=
  ⟨(C5_register_saves_one_account_no_session auth0 baseCollab "a@x.com" "pw"
      AccountRole.USER 1 [9] 7 rfl rfl).1,
    (C5_register_saves_one_account_no_session auth0 baseCollab "a@x.com" "pw"
      AccountRole.USER 1 [9] 7 rfl rfl).2.1⟩

/-- Claim C6: a successful RefreshAccountSession returns the new pair
with expiry now + refreshTokenTTL; its only session-store write is one
save-session call whose expiry argument (the row's refreshExpiresAt per
the store contract) is now + refreshTokenTTL; it issues no revoke call;
and running its trace against any session-store state appends the one
new row and leaves every prior row present and unchanged. -/
theorem C6_refresh_is_additive (a : Auth) (c : Collab) (accountID : Int)
    (refreshToken userAgent ipAddress : String)
    (acc : Account) (ap : App) (s : Session) (tok rtok sid : String)
    (h1 : c.accountById accountID = .ok acc)
    (h2 : c.app acc.appId = .ok ap)
    (h3 : c.sessionByRefreshToken refreshToken = .ok s)
    (h4 : ¬ s.refreshExpiresAt < c.now)
    (h5 : c.jwtNewToken acc ap a.tokenTTL = .ok tok)
    (h6 : c.newRefreshToken = .ok rtok)
    (h7 : c.saveSession accountID userAgent ipAddress tok rtok
      (c.now + a.refreshTokenTTL) = .ok sid) :
    (a.RefreshAccountSession c accountID refreshToken userAgent ipAddress).1 =
      (tok, rtok, c.now + a.refreshTokenTTL, none) ∧
    ((a.RefreshAccountSession c accountID refreshToken userAgent ipAddress).2.filter
        Effect.isSessionWrite) =
      [Effect.saveSession accountID userAgent ipAddress tok rtok
        (c.now + a.refreshTokenTTL)] ∧
    (∀ eff ∈ (a.RefreshAccountSession c accountID refreshToken userAgent ipAddress).2,
      eff.isRevoke = false) ∧
    (∀ store : List SessionRow,
      applyTrace store
        (a.RefreshAccountSession c accountID refreshToken userAgent ipAddress).2 =
      store ++ [⟨accountID, userAgent, ipAddress, tok, rtok,
        c.now + a.refreshTokenTTL⟩]) := by
  refine ⟨?_, ?_, ?_, ?_⟩ <;>
    simp [Auth.RefreshAccountSession, generateRefreshToken, h1, h2, h3, h4, h5, h6,
      h7, Effect.isSessionWrite, Effect.isRevoke, applyTrace, applySessionEffect]

/-- Witness for C6: on the all-succeeding collaborators (session
refreshable until 200, now = 100, refresh TTL 86400) the refresh
returns the new pair with expiry 86500, and its trace run against a
store holding row0 appends exactly the one new row after row0. -/
theorem C6_refresh_is_additive_witness :
    (auth0.RefreshAccountSession baseCollab 7 "rt" "ua" "ip").1 =
      ("jwt", "newrt", 86500, none) ∧
    applyTrace [row0] (auth0.RefreshAccountSession baseCollab 7 "rt" "ua" "ip").2 =
      [row0, rowNew] := by
  have h := C6_refresh_is_additive auth0 baseCollab 7 "rt" "ua" "ip" acc1 app1
    (sess "t" 100 200) "jwt" "newrt" "sid" rfl rfl rfl (by decide) rfl rfl rfl
  exact ⟨h.1, by simpa using h.2.2.2 [row0]⟩

/-- Claim C7, counterexample: when the account lookup by id fails with
a persistence error, ChangePassword fails with that error wrapped — an
error that does not carry the AccountNotFound kind, contradicting the
claim that every lookup failure surfaces as AccountNotFound. -/
theorem C7_lookup_failure_counterexample :
    (auth0.ChangePassword collabC7 7 "old" "new").1 =
      (false, some (.wrap "Auth.ChangePassword" (.kind .persistenceFailure))) ∧
    GoErr.isKind (.wrap "Auth.ChangePassword" (.kind .persistenceFailure))
      ErrKind.accountNotFound = false :=
  ⟨rfl, rfl⟩

/-- Claim C7, amended: if the account lookup by id fails, ChangePassword
fails with the store's error wrapped unchanged (AccountNotFound exactly
when the store reported the account missing), and issues no password
update; if the old password does not verify it fails with
InvalidCredentials, again without issuing an update; otherwise the new
password's hash is persisted through the update-password operation and
the call succeeds. -/
theorem C7_change_password_behaviour (a : Auth) (c : Collab) (accountID : Int)
    (oldPassword newPassword : String) :
    (∀ e, c.accountById accountID = .error e →
      (a.ChangePassword c accountID oldPassword newPassword).1 =
        (false, some (.wrap "Auth.ChangePassword" e)) ∧
      (a.ChangePassword c accountID oldPassword newPassword).2 =
        [Effect.readAccountById accountID]) ∧
    (∀ acc e2, c.accountById accountID = .ok acc →
      c.bcryptCompare acc.passHash oldPassword = some e2 →
      (a.ChangePassword c accountID oldPassword newPassword).1 =
        (false, some (.wrap "Auth.ChangePassword" (.kind .invalidCredentials))) ∧
      (a.ChangePassword c accountID oldPassword newPassword).2 =
        [Effect.readAccountById accountID]) ∧
    (∀ acc ph, c.accountById accountID = .ok acc →
      c.bcryptCompare acc.passHash oldPassword = none →
      c.bcryptHash newPassword = .ok ph →
      c.updatePassword accountID ph = none →
      (a.ChangePassword c accountID oldPassword newPassword).1 = (true, none) ∧
      (a.ChangePassword c accountID oldPassword newPassword).2 =
        [Effect.readAccountById accountID, Effect.updatePassword accountID ph]) := by
  refine ⟨fun e he => ?_, fun acc e2 hacc hcmp => ?_, fun acc ph hacc hcmp hph hup => ?_⟩
  · simp [Auth.ChangePassword, he]
  · simp [Auth.ChangePassword, hacc, hcmp]
  · simp [Auth.ChangePassword, hacc, hcmp, hph, hup]

/-- Witness for C7: on the all-succeeding collaborators the password
change succeeds and its trace is the account read followed by the
update carrying the new hash. -/
theorem C7_change_password_behaviour_witness :
    (auth0.ChangePassword baseCollab 7 "old" "new").1 = (true, none) ∧
    (auth0.ChangePassword baseCollab 7 "old" "new").2 =
      [Effect.readAccountById 7, Effect.updatePassword 7 [9]] :=
  (C7_change_password_behaviour auth0 baseCollab 7 "old" "new").2.2 acc1 [9]
    rfl rfl rfl rfl

/-- Claim C10: whenever Login returns an error — whichever step failed —
both returned token strings are empty. -/
theorem C10_login_failure_returns_no_tokens (a : Auth) (c : Collab)
    (email password userAgent ipAddress : String) (appID : Int) (e : GoErr)
    (h : (a.Login c email password userAgent ipAddress appID).1.2.2 = some e) :
    (a.Login c email password userAgent ipAddress appID).1.1 = "" ∧
    (a.Login c email password userAgent ipAddress appID).1.2.1 = "" := by
  cases h1 : c.accountByEmail email with
  | error e1 =>
      cases h2 : e1.isKind .accountNotFound <;> simp [Auth.Login, h1, h2]
  | ok u =>
      cases h2 : c.bcryptCompare u.passHash password with
      | some e2 => simp [Auth.Login, h1, h2]
      | none =>
          cases h3 : c.app appID with
          | error e3 => simp [Auth.Login, h1, h2, h3]
          | ok app =>
              cases h4 : c.jwtNewToken u app a.tokenTTL with
              | error e4 => simp [Auth.Login, h1, h2, h3, h4]
              | ok tok =>
                  cases h5 : c.newRefreshToken with
                  | error e5 =>
                      simp [Auth.Login, generateRefreshToken, h1, h2, h3, h4, h5]
                  | ok rtok =>
                      cases h6 : c.saveSession u.id userAgent ipAddress tok rtok
                          (c.now + a.refreshTokenTTL) with
                      | error e6 =>
                          simp [Auth.Login, generateRefreshToken, h1, h2, h3, h4,
                            h5, h6]
                      | ok sid =>
                          simp [Auth.Login, generateRefreshToken, h1, h2, h3, h4,
                            h5, h6] at h

/-- Witness for C10: when the app lookup fails, Login returns empty
access and refresh tokens. -/
theorem C10_login_failure_returns_no_tokens_witness :
    (auth0.Login collabC10 "a@x.com" "pw" "ua" "ip" 1).1.1 = "" ∧
    (auth0.Login collabC10 "a@x.com" "pw" "ua" "ip" 1).1.2.1 = "" :=
  C10_login_failure_returns_no_tokens auth0 collabC10 "a@x.com" "pw" "ua" "ip" 1
    (.wrap "Auth.Login" (.kind .appNotFound)) rfl
